import Mathlib

/-!
Verification development for the openclaw-voice-channel repository.

Shallow embedding of the post-processing pipeline (batch worker), the
transcription gateway retry operation, the real-time stream handler and the
re-interpret endpoint.  Python dicts for segments become a structure with
`Option` fields (an absent key is `none`); Python floats become `ℚ` so that
the exact threshold comparisons of the source are decidable; fallible
operations return `Except`; external collaborators (the ASR model, the
language-identification library, the LLM, the file system) are oracle
parameters.  All definitions are translated from the source files named in
the comments above them.

Rational arithmetic is written with `Rat.divInt` / `mkRat` / integer
operations (the kit `ratDiv`, `qadd`, `roundTo` below) so that every
definition evaluates inside the kernel; bridge lemmas connect the kit to
the ordinary field operations on `ℚ` for use in proofs.
-/

/-- Division on `ℚ`, written on numerators and denominators so it reduces in
the kernel.  Agrees with `/` (see `ratDiv_eq`). -/
def ratDiv (a b : ℚ) : ℚ := Rat.divInt (a.num * (b.den : Int)) ((a.den : Int) * b.num)

/-- Addition on `ℚ`, written on numerators and denominators so it reduces in
the kernel.  Agrees with `+` (see `qadd_eq`). -/
def qadd (a b : ℚ) : ℚ :=
  Rat.divInt (a.num * (b.den : Int) + b.num * (a.den : Int)) ((a.den : Int) * (b.den : Int))

/-- `10 ^ d` as an integer, computed on naturals. -/
def intPow10 (d : Nat) : Int := ((10 ^ d : Nat) : Int)

/-- Round a rational to the nearest integer, ties to even: the tie rule of
Python `round`. -/
def roundHalfEven (x : ℚ) : ℤ :=
  let n := x.num
  let d : Int := (x.den : Int)
  let f := n.fdiv d
  let r := n - f * d
  if 2 * r < d then f
  else if 2 * r > d then f + 1
  else if 2 ∣ f then f else f + 1

/-- Python `round(x, d)` on the rational embedding of a float (the binary
representation error of floats is outside the model). -/
def roundTo (dp : Nat) (x : ℚ) : ℚ :=
  Rat.divInt (roundHalfEven (Rat.divInt (x.num * intPow10 dp) (x.den : Int))) (intPow10 dp)

/-- Word dict: `{start, end, word, probability}` as produced by the gateway.
A key that may be missing is an `Option`; `w.get("probability", 1.0)` becomes
`probability.getD 1`. -/
structure Word where
  start : Option ℚ := none
  end_ : Option ℚ := none
  word : Option String := none
  probability : Option ℚ := none
  deriving DecidableEq, Repr

/-- PII flag dict `{type, start_char, end_char, text}`
(src/batch_worker/pipeline/pii_flagging.py). -/
structure PiiFlag where
  type : String
  start_char : Nat
  end_char : Nat
  text : String
  deriving DecidableEq, Repr

/-- Segment dict as it flows through the pipeline stages.  Every key that a
stage may read or write is a field; an absent key is `none`.  (Python code
that writes an explicit `None` value is also modelled as `none`: no claim
distinguishes a key bound to `None` from an absent key.) -/
structure Segment where
  start : Option ℚ := none
  end_ : Option ℚ := none
  text : Option String := none
  words : Option (List Word) := none
  avg_logprob : Option ℚ := none
  compression_ratio : Option ℚ := none
  no_speech_prob : Option ℚ := none
  low_confidence : Option Bool := none
  word_confidence_avg : Option ℚ := none
  word_confidence_min : Option ℚ := none
  low_confidence_words : Option (List Word) := none
  detected_language : Option String := none
  language_confidence : Option ℚ := none
  language_switch : Option Bool := none
  processed_text : Option String := none
  subtitle_lines : Option (List String) := none
  pii_flags : Option (List PiiFlag) := none
  has_pii : Option Bool := none
  speaker_id : Option String := none
  retried : Option Bool := none
  retry_model : Option String := none
  language : Option String := none
  deriving DecidableEq, Repr


/-- Python whitespace (`str.strip` / `str.split` / `\s`): ASCII whitespace
plus vertical tab and form feed (exotic Unicode spaces are outside the
repertoire of this system). -/
def isPyWs (c : Char) : Bool :=
  c.isWhitespace || c = '\x0b' || c = '\x0c'

/-- Python `str.strip()` on the char-list view (kernel-computable, unlike
`String.trim`). -/
def pyStrip (s : String) : String :=
  String.mk (((s.toList.dropWhile isPyWs).reverse.dropWhile isPyWs).reverse)

/-- Python `sep.join(parts)` (kernel-computable). -/
def joinSep (sep : String) : List String → String
  | [] => ""
  | [x] => x
  | x :: xs => x ++ sep ++ joinSep sep xs

/-- Python `str.split()` with no separator: split on whitespace runs,
dropping empty pieces; `acc` carries the current word reversed. -/
def pySplitGo : List Char → List Char → List String
  | [], acc => if acc ≠ [] then [String.mk acc.reverse] else []
  | c :: cs, acc =>
    if isPyWs c then
      (if acc ≠ [] then String.mk acc.reverse :: pySplitGo cs [] else pySplitGo cs [])
    else pySplitGo cs (c :: acc)

/-- Python `str.split()` with no separator. -/
def pySplit (s : String) : List String := pySplitGo s.toList []

namespace Confidence

/-- src/batch_worker/pipeline/confidence.py `_is_low_confidence_dict`:
`seg.get(k, 0)` becomes `getD 0`, `w.get("probability", 1.0)` becomes
`getD 1`; the early-return chain becomes a nested conditional. -/
def _is_low_confidence_dict (seg : Segment) : Bool :=
  if seg.avg_logprob.getD 0 < -1 then true
  else if seg.compression_ratio.getD 0 > mkRat 24 10 then true
  else if seg.no_speech_prob.getD 0 > mkRat 6 10 then true
  else
    let words := seg.words.getD []
    if words ≠ [] then
      let low := (words.filter (fun w => w.probability.getD 1 < mkRat 3 10)).length
      if ratDiv (low : ℚ) (words.length : ℚ) > mkRat 3 10 then true else false
    else false

/-- src/batch_worker/pipeline/confidence.py `evaluate_confidence`.  The
Python loop mutates each dict in place; the embedding maps over the list.
`low_confidence` is computed from the incoming segment (the later field
writes of the loop body do not feed the heuristic). -/
def evaluate_confidence (segments : List Segment) : List Segment :=
  segments.map fun seg =>
    let words := seg.words.getD []
    if words ≠ [] then
      let probs := words.map (fun w => w.probability.getD 1)
      let m := probs.foldl min (probs.headD 1)
      { seg with
        low_confidence := some (_is_low_confidence_dict seg)
        word_confidence_avg := some (roundTo 4 (ratDiv (probs.foldl qadd 0) (probs.length : ℚ)))
        word_confidence_min := some (roundTo 4 m)
        low_confidence_words := some (words.filter (fun w => w.probability.getD 1 < mkRat 3 10)) }
    else
      { seg with
        low_confidence := some (_is_low_confidence_dict seg)
        word_confidence_avg := none
        word_confidence_min := none
        low_confidence_words := some [] }

end Confidence

namespace ApiServer

/-- src/api_server.py `_is_low_confidence_dict`: the MLX-side copy of the
heuristic, written with explicit `is not None` guards. -/
def _is_low_confidence_dict (seg : Segment) : Bool :=
  match seg.avg_logprob with
  | some a => if a < -1 then true else _rest1 seg
  | none => _rest1 seg
where
  _rest1 (seg : Segment) : Bool :=
    match seg.compression_ratio with
    | some c => if c > mkRat 24 10 then true else _rest2 seg
    | none => _rest2 seg
  _rest2 (seg : Segment) : Bool :=
    match seg.no_speech_prob with
    | some n => if n > mkRat 6 10 then true else _rest3 seg
    | none => _rest3 seg
  _rest3 (seg : Segment) : Bool :=
    let words := seg.words.getD []
    if words ≠ [] then
      let low := (words.filter (fun w => w.probability.getD 1 < mkRat 3 10)).length
      if ratDiv (low : ℚ) (words.length : ℚ) > mkRat 3 10 then true else false
    else false

end ApiServer

/-- The low-confidence disjunction exactly as the spec words it (§4.1): any
of the three threshold tests on a *present* field, or a non-empty word list
whose fraction of words with probability below 0.3 strictly exceeds 0.3.
A missing field never triggers its branch.  Written from the spec (with the
ordinary field operations of `ℚ`), to be compared against the source
translation `Confidence._is_low_confidence_dict`. -/
def lowConfidenceSpec (seg : Segment) : Prop :=
  (∃ a, seg.avg_logprob = some a ∧ a < -1) ∨
  (∃ c, seg.compression_ratio = some c ∧ c > 24/10) ∨
  (∃ n, seg.no_speech_prob = some n ∧ n > 6/10) ∨
  (∃ ws, seg.words = some ws ∧ ws ≠ [] ∧
    ((ws.filter (fun w => w.probability.getD 1 < 3/10)).length : ℚ) / (ws.length : ℚ) > 3/10)

/-- A ten-word segment, `k` of whose words have probability 0.2 (below the
0.3 word threshold) and the rest 0.9. -/
def segTenWords (k : Nat) : Segment :=
  { words := some ((List.replicate k ({ probability := some (mkRat 2 10) } : Word)) ++
      (List.replicate (10 - k) ({ probability := some (mkRat 9 10) } : Word))) }

/-- Segment with compression_ratio exactly 2.4 and nothing else set. -/
def segCompression24 : Segment := { compression_ratio := some (mkRat 24 10) }


namespace TextProcessing

/-- Characters counted as word characters: ASCII alphanumerics, underscore,
and the Latin-1 / Latin-Extended letter block (covers the Swedish letters the
repository handles).  Approximates the Unicode `\w` of Python `re` over the
character repertoire appearing in the system. -/
def isWordChar (c : Char) : Bool :=
  c.isAlphanum || c = '_' ||
    (0xC0 ≤ c.toNat && c.toNat ≤ 0x24F && c.toNat ≠ 0xD7 && c.toNat ≠ 0xF7)

/-- Letter test (Python `str.isalpha` over the same repertoire). -/
def isAlphaSw (c : Char) : Bool :=
  c.isAlpha || (0xC0 ≤ c.toNat && c.toNat ≤ 0x24F && c.toNat ≠ 0xD7 && c.toNat ≠ 0xF7)

/-- Uppercase mapping for ASCII and Latin-1 letters (Python `str.upper` on
the repertoire used). -/
def upperSw (c : Char) : Char :=
  if 'a' ≤ c ∧ c ≤ 'z' then Char.ofNat (c.toNat - 0x20)
  else if 0xE0 ≤ c.toNat ∧ c.toNat ≤ 0xFE ∧ c.toNat ≠ 0xF7 then Char.ofNat (c.toNat - 0x20)
  else c

/-- Lowercase mapping for ASCII and Latin-1 letters (Python `str.lower`). -/
def lowerSw (c : Char) : Char :=
  if 'A' ≤ c ∧ c ≤ 'Z' then Char.ofNat (c.toNat + 0x20)
  else if 0xC0 ≤ c.toNat ∧ c.toNat ≤ 0xDE ∧ c.toNat ≠ 0xD7 then Char.ofNat (c.toNat + 0x20)
  else c

/-- One step of `_normalize_punctuation`: every pattern of the source map is
a single character and no replacement contains a pattern character, so the
eight sequential `str.replace` calls equal one character-wise pass. -/
def normChar (c : Char) : List Char :=
  if c = '\u2018' then ['\x27'] else if c = '\u2019' then ['\x27']
  else if c = '\u201c' then ['\x22'] else if c = '\u201d' then ['\x22']
  else if c = '\u2013' then ['-'] else if c = '\u2014' then ['-']
  else if c = '\u2026' then ['.', '.', '.']
  else if c = '\u00a0' then [' '] else [c]

/-- src/batch_worker/pipeline/text_processing.py `_normalize_punctuation`. -/
def _normalize_punctuation (text : String) : String :=
  String.mk ((text.toList.map normChar).flatten)

/-- State update of the sentence-capitalization scan: state 1 after a
sentence-ending `.!?`, state 2 once at least one whitespace followed it,
state 0 otherwise. -/
def capsNext (st : Nat) (c : Char) : Nat :=
  if c = '.' ∨ c = '!' ∨ c = '?' then 1
  else if c.isWhitespace then (if st = 1 ∨ st = 2 then 2 else 0) else 0

/-- Character scan of the regex substitution
`re.sub(r'(^|[.!?]\s+)(\w)', upper, text)`: a word character is uppercased
at the start of the string or after sentence punctuation plus whitespace. -/
def capsGo : List Char → Nat → List Char
  | [], _ => []
  | c :: cs, st =>
    (if st = 2 ∧ isWordChar c then upperSw c else c) :: capsGo cs (capsNext st c)

/-- src/batch_worker/pipeline/text_processing.py `_capitalize_sentences`.
The initial state 2 realizes the `^` alternative of the regex; then the
first character is uppercased when alphabetic. -/
def _capitalize_sentences (text : String) : String :=
  let l := capsGo text.toList 2
  match l with
  | [] => ""
  | c :: rest => if isAlphaSw c then String.mk (upperSw c :: rest) else String.mk (c :: rest)

/-- Python `str.split()` with no separator: split on whitespace runs,
dropping empty pieces. -/
def pySplit (s : String) : List String :=
  (s.split (fun c => c.isWhitespace)).filter (fun w => w ≠ "")

/-- Replace the last element of a non-empty list (`lines[-1] = s`). -/
def setLast (l : List String) (s : String) : List String := l.dropLast ++ [s]

/-- Loop body of `_split_subtitle_lines`: iterates over the remaining words
carrying `lines` and `current_line`; `allWords` is the full word list, used
by the source through `words.index(word)` (first occurrence of the word
value, a quirk kept by the embedding). -/
def subSplitGo (allWords : List String) (max_chars max_lines : Nat) :
    List String → List String → String → List String
  | [], lines, current =>
      if current ≠ "" then
        if lines.length ≥ max_lines then
          setLast lines (((lines.getLast?).getD "") ++ " " ++ current)
        else lines ++ [current]
      else lines
  | w :: rest, lines, current =>
      let test := if current ≠ "" then current ++ " " ++ w else w
      if test.length ≤ max_chars then subSplitGo allWords max_chars max_lines rest lines test
      else
        let lines1 := if current ≠ "" then lines ++ [current] else lines
        if lines1.length ≥ max_lines then
          let idx := allWords.indexOf w
          let remaining := joinSep " " (allWords.drop (idx + 1))
          let lastLine :=
            if remaining ≠ "" then ((lines1.getLast?).getD "") ++ " " ++ w ++ " " ++ remaining
            else ((lines1.getLast?).getD "") ++ " " ++ w
          setLast lines1 lastLine
        else subSplitGo allWords max_chars max_lines rest lines1 w

/-- src/batch_worker/pipeline/text_processing.py `_split_subtitle_lines`. -/
def _split_subtitle_lines (text : String) (max_chars : Nat := 42) (max_lines : Nat := 2) :
    List String :=
  let words := pySplit text
  (subSplitGo words max_chars max_lines words [] "").take max_lines

/-- src/batch_worker/pipeline/text_processing.py `process_text`. -/
def process_text (segments : List Segment) (casing_profile : String := "verbatim") :
    List Segment :=
  if casing_profile = "verbatim" then segments
  else
    segments.map fun seg =>
      let text := _normalize_punctuation (seg.text.getD "")
      if casing_profile = "meeting_notes" then
        { seg with processed_text := some (_capitalize_sentences text) }
      else if casing_profile = "subtitle_friendly" then
        let t := _capitalize_sentences text
        { seg with subtitle_lines := some (_split_subtitle_lines t), processed_text := some t }
      else
        { seg with processed_text := some text }

end TextProcessing


namespace LanguageDetect

/-- src/batch_worker/pipeline/language_detect.py `MIN_TEXT_LENGTH`. -/
def MIN_TEXT_LENGTH : Nat := 10

/-- One candidate of the external `langdetect.detect_langs` result
(`lang`, `prob` attributes). -/
structure LangCand where
  lang : String
  prob : ℚ
  deriving DecidableEq, Repr

/-- src/batch_worker/pipeline/language_detect.py `detect_segment_languages`.
The external `detect_langs` call is the oracle `detector`: `.error` models a
raised `LangDetectException`, `.ok` the returned candidate list.  The Python
loop mutates segments in place; the embedding maps over the list. -/
def detect_segment_languages (detector : String → Except Unit (List LangCand))
    (segments : List Segment) (file_language : String := "sv") : List Segment :=
  segments.map fun seg =>
    let text := pyStrip (seg.text.getD "")
    if text.length < MIN_TEXT_LENGTH then
      { seg with detected_language := some file_language,
                 language_confidence := some 1, language_switch := some false }
    else
      match detector text with
      | .ok (best :: _) =>
          { seg with detected_language := some best.lang,
                     language_confidence := some (roundTo 4 best.prob),
                     language_switch := some (best.lang != file_language) }
      | .ok [] =>
          { seg with detected_language := some file_language,
                     language_confidence := some 0, language_switch := some false }
      | .error _ =>
          { seg with detected_language := some file_language,
                     language_confidence := some 0, language_switch := some false }

end LanguageDetect

/-- Concrete detector oracle for the C6 witness. -/
def lgDetector0 : String → Except Unit (List LanguageDetect.LangCand) :=
  fun _ => .ok [{ lang := "en", prob := mkRat 9 10 }]

/-- Concrete segment for the C6 witness: trimmed text of length 11. -/
def lgSeg0 : Segment := { text := some "hello world" }


namespace Re

/-- Regular-expression fragment sufficient for the three PII patterns of
src/batch_worker/pipeline/pii_flagging.py: character classes, literals,
concatenation, ordered alternation, and greedy counted repetition of a
character class (`hi = none` meaning unbounded). -/
inductive RE where
  | cls (p : Char → Bool)
  | lit (s : List Char)
  | seq (a b : RE)
  | alt (a b : RE)
  | repCls (p : Char → Bool) (lo : Nat) (hi : Option Nat)

/-- Length of the longest run of class characters at the head of the list. -/
def maxRun (p : Char → Bool) : List Char → Nat
  | [] => 0
  | c :: cs => if p c then maxRun p cs + 1 else 0

/-- Backtracking helper for greedy repetition: try to continue with `k`
after consuming `n, n-1, …, lo` class characters, longest first. -/
def tryDesc (k : List Char → Option (List Char)) (cs : List Char) (lo : Nat) :
    Nat → Option (List Char)
  | 0 => if lo = 0 then k cs else none
  | n + 1 =>
    if n + 1 < lo then none
    else
      match k (cs.drop (n + 1)) with
      | some r => some r
      | none => tryDesc k cs lo n

/-- Backtracking matcher in continuation-passing style, implementing the
leftmost-greedy semantics of Python `re`: `k` receives the unconsumed
suffix; the result is the suffix left after the whole match. -/
def matchCPS : RE → List Char → (List Char → Option (List Char)) → Option (List Char)
  | .cls p, c :: cs, k => if p c then k cs else none
  | .cls _, [], _ => none
  | .lit s, cs, k => if s.isPrefixOf cs then k (cs.drop s.length) else none
  | .seq a b, cs, k => matchCPS a cs (fun rest => matchCPS b rest k)
  | .alt a b, cs, k =>
    (match matchCPS a cs k with
     | some r => some r
     | none => matchCPS b cs k)
  | .repCls p lo hi, cs, k =>
    let m := maxRun p cs
    let top := match hi with | some h => min h m | none => m
    tryDesc k cs lo top

/-- `re.finditer`: scan left to right, emit non-overlapping matches
`(start, length)`, resume after each match.  None of the embedded patterns
can match the empty string, so a zero-width match just advances.  The fuel
argument (structural recursion, so the definition evaluates in the kernel)
is initialized to more than the text length and cannot run out: every
recursive call consumes at least one character. -/
def findAux (r : RE) : Nat → List Char → Nat → List (Nat × Nat)
  | 0, _, _ => []
  | _ + 1, [], _ => []
  | fuel + 1, c :: cs, pos =>
    match matchCPS r (c :: cs) some with
    | some rest =>
      let consumed := (c :: cs).length - rest.length
      if 0 < consumed then
        (pos, consumed) :: findAux r fuel ((c :: cs).drop consumed) (pos + consumed)
      else findAux r fuel cs (pos + 1)
    | none => findAux r fuel cs (pos + 1)

/-- `re.finditer` over a string, positions counted in code points. -/
def reFind (r : RE) (text : String) : List (Nat × Nat) :=
  findAux r (text.toList.length + 1) text.toList 0

end Re

/-- `text[s : s+len]` as a string. -/
def sliceStr (text : String) (s len : Nat) : String :=
  String.mk ((text.toList.drop s).take len)

namespace PiiFlagging

/-- `[-\s]` of the personnummer pattern. -/
def dashOrWs (c : Char) : Bool := c = '-' || isPyWs c

/-- `personnummer`: `\d{6,8}[-\s]?\d{4}`. -/
def personnummerRE : Re.RE :=
  .seq (.repCls Char.isDigit 6 (some 8)) (.seq (.repCls dashOrWs 0 (some 1)) (.repCls Char.isDigit 4 (some 4)))

/-- `[a-zA-Z0-9._%+-]` of the email local part. -/
def emailLocalChar (c : Char) : Bool :=
  c.isAlphanum || c = '.' || c = '_' || c = '%' || c = '+' || c = '-'

/-- `[a-zA-Z0-9.-]` of the email domain part. -/
def emailDomainChar (c : Char) : Bool := c.isAlphanum || c = '.' || c = '-'

/-- `email`: `[a-zA-Z0-9._%+-]+@[a-zA-Z0-9.-]+\.[a-zA-Z]{2,}`. -/
def emailRE : Re.RE :=
  .seq (.repCls emailLocalChar 1 none)
    (.seq (.cls (fun c => c = '@'))
      (.seq (.repCls emailDomainChar 1 none)
        (.seq (.cls (fun c => c = '.')) (.repCls Char.isAlpha 2 none))))

/-- `telefon`:
`(?:\+46|0)\s*[1-9]\d{0,2}[\s-]?\d{2,3}[\s-]?\d{2}[\s-]?\d{2}`. -/
def telefonRE : Re.RE :=
  .seq (.alt (.lit "+46".toList) (.lit "0".toList))
    (.seq (.repCls isPyWs 0 none)
      (.seq (.cls (fun c => '1' ≤ c ∧ c ≤ '9'))
        (.seq (.repCls Char.isDigit 0 (some 2))
          (.seq (.repCls dashOrWs 0 (some 1))
            (.seq (.repCls Char.isDigit 2 (some 3))
              (.seq (.repCls dashOrWs 0 (some 1))
                (.seq (.repCls Char.isDigit 2 (some 2))
                  (.seq (.repCls dashOrWs 0 (some 1)) (.repCls Char.isDigit 2 (some 2))))))))))

/-- The hits of one regex pattern as flag dicts
(`{type, start_char, end_char, text}`). -/
def patternFlags (ty : String) (r : Re.RE) (text : String) : List PiiFlag :=
  (Re.reFind r text).map fun m =>
    { type := ty, start_char := m.1, end_char := m.1 + m.2, text := sliceStr text m.1 m.2 }

/-- `_PROFANITY_WORDS` of src/batch_worker/pipeline/pii_flagging.py.  The
source stores the words in a Python `set`, whose iteration order (hence the
alternation order inside the compiled regex) is unspecified; for this word
list the word boundaries make at most one alternative match at any position,
so every order yields the same matches, and the embedding fixes the source
listing order. -/
def _PROFANITY_WORDS : List String :=
  ["fan", "jävla", "jävlar", "helvete", "skit", "skita",
   "förbannad", "förbannade", "satan", "satans",
   "jävel", "jävligt", "faen", "fy fan"]

/-- Case-insensitive prefix match of a (lowercase) word. -/
def ciMatchesAt : List Char → List Char → Bool
  | [], _ => true
  | _ :: _, [] => false
  | a :: ws, c :: cs => (TextProcessing.lowerSw c = a) && ciMatchesAt ws cs

/-- A profanity word matches at the head of `cs` with a word boundary after
it (all words end in a word character, so the boundary holds iff the next
character is absent or not a word character). -/
def profWordOk (w : List Char) (cs : List Char) : Bool :=
  ciMatchesAt w cs &&
    (match cs.drop w.length with
     | [] => true
     | a :: _ => !(TextProcessing.isWordChar a))

/-- First profanity word matching at the head (at most one can, see
`_PROFANITY_WORDS`); returns its length. -/
def firstProfMatch (cs : List Char) : Option Nat :=
  _PROFANITY_WORDS.findSome? fun w =>
    if profWordOk w.toList cs then some w.toList.length else none

/-- `finditer` of the word-boundary profanity pattern: `prevWord` records
whether the previous character was a word character (the `\b` on the left);
scanning resumes after each match, whose last character is a word
character.  Fuel as in `Re.findAux`. -/
def profFind : Nat → List Char → Bool → Nat → List (Nat × Nat)
  | 0, _, _, _ => []
  | _ + 1, [], _, _ => []
  | fuel + 1, c :: cs, prevWord, pos =>
    if prevWord then profFind fuel cs (TextProcessing.isWordChar c) (pos + 1)
    else
      match firstProfMatch (c :: cs) with
      | some len =>
        if 0 < len then
          (pos, len) :: profFind fuel ((c :: cs).drop len) true (pos + len)
        else profFind fuel cs (TextProcessing.isWordChar c) (pos + 1)
      | none => profFind fuel cs (TextProcessing.isWordChar c) (pos + 1)

/-- All profanity hits of a text as flag dicts. -/
def profanityFlags (text : String) : List PiiFlag :=
  (profFind (text.toList.length + 1) text.toList false 0).map fun m =>
    { type := "profanity", start_char := m.1, end_char := m.1 + m.2,
      text := sliceStr text m.1 m.2 }

/-- The complete scan of one text: the three `_PATTERNS` in their source
(dict) order, then the profanity pattern — the order in which
src/batch_worker/pipeline/pii_flagging.py `flag_pii` appends flags. -/
def piiScan (text : String) : List PiiFlag :=
  patternFlags "personnummer" personnummerRE text ++
    patternFlags "email" emailRE text ++
      patternFlags "telefon" telefonRE text ++
        profanityFlags text

/-- The text that `flag_pii` actually scans:
`seg.get("text", "") or seg.get("processed_text", "")`, i.e. `text` when
present and non-empty, else `processed_text` (else the empty string). -/
def codeScanText (seg : Segment) : String :=
  let t1 := seg.text.getD ""
  if t1 ≠ "" then t1 else seg.processed_text.getD ""

/-- Loop body of src/batch_worker/pipeline/pii_flagging.py `flag_pii` for
one segment dict. -/
def flagOne (seg : Segment) : Segment :=
  let flags := piiScan (codeScanText seg)
  { seg with pii_flags := some flags, has_pii := some (flags.length > 0) }

/-- src/batch_worker/pipeline/pii_flagging.py `flag_pii` (the loop mutates
each dict in place; the embedding maps over the list). -/
def flag_pii (segments : List Segment) : List Segment := segments.map flagOne

end PiiFlagging

/-- The scan target as claim C5 words it: `processed_text` whenever present,
otherwise `text`.  Written from the claim, to be compared against
`PiiFlagging.codeScanText`. -/
def claimScanTextC5 (seg : Segment) : String :=
  match seg.processed_text with
  | some t => t
  | none => seg.text.getD ""

/-- Claim C5 as stated, as a predicate: every segment is flagged from the
claim scan target (`processed_text` first), with all other fields kept. -/
def claimC5Statement : Prop :=
  ∀ seg : Segment,
    PiiFlagging.flag_pii [seg] =
      [{ seg with pii_flags := some (PiiFlagging.piiScan (claimScanTextC5 seg)),
                  has_pii := some ((PiiFlagging.piiScan (claimScanTextC5 seg)).length > 0) }]

/-- Counterexample segment for C5: `text` carries no PII, `processed_text`
carries an email address. -/
def piiSeg0 : Segment := { text := some "hej", processed_text := some "a@b.se" }

/-- The §8 scenario text of the spec. -/
def annaText : String :=
  "Hej jag heter Anna min epost är anna@example.se och mitt nummer är 070-123 45 67"

/-- Segment carrying the §8 scenario text. -/
def annaSeg : Segment := { text := some annaText }


namespace Gateway

/-- faster-whisper word object (attribute access, no missing fields). -/
structure FwWord where
  start : ℚ
  end_ : ℚ
  word : String
  probability : ℚ
  deriving DecidableEq, Repr

/-- faster-whisper segment object as yielded by `model.transcribe`
(attribute access; `words` is `None` when word timestamps are off). -/
structure FwSegment where
  start : ℚ
  end_ : ℚ
  text : String
  words : Option (List FwWord) := none
  avg_logprob : ℚ
  compression_ratio : ℚ
  no_speech_prob : ℚ
  deriving DecidableEq, Repr

/-- src/api_server.py `_is_low_confidence` (attribute version of the
confidence heuristic). -/
def _is_low_confidence (segment : FwSegment) : Bool :=
  if segment.avg_logprob < -1 then true
  else if segment.compression_ratio > mkRat 24 10 then true
  else if segment.no_speech_prob > mkRat 6 10 then true
  else
    let words := segment.words.getD []
    if words ≠ [] then
      let low := (words.filter (fun w => w.probability < mkRat 3 10)).length
      if ratDiv (low : ℚ) (words.length : ℚ) > mkRat 3 10 then true else false
    else false

/-- src/api_server.py `_format_segment`: starts/ends rounded to 3 decimals,
probabilities and log-probs to 4, text stripped, confidence derived. -/
def _format_segment (segment : FwSegment) : Segment :=
  { start := some (roundTo 3 segment.start),
    end_ := some (roundTo 3 segment.end_),
    text := some (pyStrip segment.text),
    words := some ((segment.words.getD []).map fun w =>
      ({ start := some (roundTo 3 w.start), end_ := some (roundTo 3 w.end_),
         word := some w.word, probability := some (roundTo 4 w.probability) } : Word)),
    avg_logprob := some (roundTo 4 segment.avg_logprob),
    compression_ratio := some (roundTo 4 segment.compression_ratio),
    no_speech_prob := some (roundTo 4 segment.no_speech_prob),
    low_confidence := some (_is_low_confidence segment) }

/-- src/api_server.py `RetryRequest` (pydantic model with its defaults). -/
structure RetryRequest where
  audio_url : Option String := none
  audio_base64 : Option String := none
  start : ℚ
  end_ : ℚ
  beam_size : Nat := 10
  model : String := "KBLab/kb-whisper-medium"
  language : String := "sv"
  deriving DecidableEq, Repr

/-- The `info` object of `model.transcribe`. -/
structure TranscribeInfo where
  language : String
  language_probability : Option ℚ := none
  deriving DecidableEq, Repr

/-- Response shape of `POST /transcribe/retry`. -/
structure RetryResponse where
  segments : List Segment
  language : String
  language_probability : Option ℚ
  model : String
  beam_size : Nat
  deriving DecidableEq, Repr

/-- HTTP error (`HTTPException(status_code, detail)`). -/
structure HErr where
  code : Nat
  detail : String
  deriving DecidableEq, Repr

/-- The segment loop of src/api_server.py `transcribe_retry`: skip while
`segment.end < start` (`continue`), stop at the first
`segment.start > end` (`break`), format and keep the rest. -/
def retryWindow (s e : ℚ) : List FwSegment → List Segment
  | [] => []
  | seg :: rest =>
    if seg.end_ < s then retryWindow s e rest
    else if seg.start > e then []
    else _format_segment seg :: retryWindow s e rest

/-- src/api_server.py `transcribe_retry`.  The oracle `modelTranscribe`
stands for `_get_fw_model(request.model).transcribe(...)` on the decoded
blob: it receives the model name and the *whole* base64 blob (the handler
never slices the audio) and yields the segments in transcription order plus
the info object.  `language_probability` is echoed rounded, with the
source's falsy test (`if info.language_probability`) turning both `None`
and `0.0` into `None`. -/
def transcribe_retry (modelTranscribe : String → String → List FwSegment × TranscribeInfo)
    (req : RetryRequest) : Except HErr RetryResponse :=
  match req.audio_base64 with
  | none => .error { code := 400, detail := "audio_base64 kravs" }
  | some audio =>
    if audio = "" then .error { code := 400, detail := "audio_base64 kravs" }
    else
      let res := modelTranscribe req.model audio
      .ok { segments := retryWindow req.start req.end_ res.1,
            language := res.2.language,
            language_probability :=
              match res.2.language_probability with
              | some p => if p ≠ 0 then some (roundTo 4 p) else none
              | none => none,
            model := req.model,
            beam_size := req.beam_size }

end Gateway

/-- Concrete transcription oracle for the C4 witness: three segments, one
ending before the window, one overlapping it, one starting after it. -/
def c4Oracle : String → String → List Gateway.FwSegment × Gateway.TranscribeInfo :=
  fun _ _ =>
    ([{ start := 0, end_ := 1, text := "a", avg_logprob := 0,
        compression_ratio := 1, no_speech_prob := 0 },
      { start := 2, end_ := 4, text := "b", avg_logprob := 0,
        compression_ratio := 1, no_speech_prob := 0 },
      { start := 7, end_ := 9, text := "c", avg_logprob := 0,
        compression_ratio := 1, no_speech_prob := 0 }],
     { language := "sv" })

/-- Concrete request for the C4 witness: window [3, 5]. -/
def c4Req : Gateway.RetryRequest :=
  { audio_base64 := some "blob", start := 3, end_ := 5, beam_size := 10,
    model := "KBLab/kb-whisper-medium", language := "sv" }


/-- src/batch_worker/config.py `PipelineConfig` with its defaults. -/
structure PipelineConfig where
  retry_enabled : Bool := true
  retry_beam_size : Nat := 10
  retry_with_large : Bool := false
  language_detect_enabled : Bool := true
  text_processing_enabled : Bool := true
  casing_profile : String := "verbatim"
  normalize_punctuation : Bool := true
  pii_flagging_enabled : Bool := true
  summary_enabled : Bool := false
  whisper_api_url : String := "http://localhost:8123"
  llm_url : String := ""
  llm_model : String := ""
  http_timeout : ℚ := 60
  http_retries : Nat := 3
  http_retry_backoff : ℚ := 1
  max_concurrent_jobs : Nat := 1
  diarization_enabled : Bool := false
  deriving DecidableEq, Repr

/-- Python dict merge on `Option` fields: the overriding dict wins on the
keys it has. -/
def oMerge {α : Type} (b s : Option α) : Option α :=
  match b with
  | some v => some v
  | none => s

namespace RetryStage

/-- `{**seg, **best, "retried": True, "retry_model": model}` of
src/batch_worker/pipeline/retry_transcribe.py: field-wise override by the
retry segment, then the two augmentation keys. -/
def mergeSegment (seg best : Segment) (model : String) : Segment :=
  { start := oMerge best.start seg.start,
    end_ := oMerge best.end_ seg.end_,
    text := oMerge best.text seg.text,
    words := oMerge best.words seg.words,
    avg_logprob := oMerge best.avg_logprob seg.avg_logprob,
    compression_ratio := oMerge best.compression_ratio seg.compression_ratio,
    no_speech_prob := oMerge best.no_speech_prob seg.no_speech_prob,
    low_confidence := oMerge best.low_confidence seg.low_confidence,
    word_confidence_avg := oMerge best.word_confidence_avg seg.word_confidence_avg,
    word_confidence_min := oMerge best.word_confidence_min seg.word_confidence_min,
    low_confidence_words := oMerge best.low_confidence_words seg.low_confidence_words,
    detected_language := oMerge best.detected_language seg.detected_language,
    language_confidence := oMerge best.language_confidence seg.language_confidence,
    language_switch := oMerge best.language_switch seg.language_switch,
    processed_text := oMerge best.processed_text seg.processed_text,
    subtitle_lines := oMerge best.subtitle_lines seg.subtitle_lines,
    pii_flags := oMerge best.pii_flags seg.pii_flags,
    has_pii := oMerge best.has_pii seg.has_pii,
    speaker_id := oMerge best.speaker_id seg.speaker_id,
    retried := some true,
    retry_model := some model,
    language := oMerge best.language seg.language }

/-- The strategy-1 request body sent to `/transcribe/retry`: the medium
model at the configured retry beam size, the segment window, the whole job
audio. -/
def mediumReq (audio : String) (cfg : PipelineConfig) (seg : Segment) (s e : ℚ) :
    Gateway.RetryRequest :=
  { audio_base64 := some audio, start := s, end_ := e,
    beam_size := cfg.retry_beam_size, model := "KBLab/kb-whisper-medium",
    language := seg.language.getD "sv" }

/-- The strategy-2 request body: the large model at the same beam size. -/
def largeReq (audio : String) (cfg : PipelineConfig) (seg : Segment) (s e : ℚ) :
    Gateway.RetryRequest :=
  { audio_base64 := some audio, start := s, end_ := e,
    beam_size := cfg.retry_beam_size, model := "KBLab/kb-whisper-large",
    language := seg.language.getD "sv" }

/-- Strategy 2 of `retry_low_confidence`: only when `retry_with_large` is
enabled; on a non-empty response the first retry segment replaces the
segment unconditionally; exceptions (`.error`) and empty responses leave it.
`calls` accumulates the requests issued so far for this segment. -/
def strategyB (gw : Gateway.RetryRequest → Except String (List Segment))
    (audio : String) (cfg : PipelineConfig) (seg : Segment) (s e : ℚ)
    (calls : List Gateway.RetryRequest) : Segment × List Gateway.RetryRequest :=
  if cfg.retry_with_large then
    let req := largeReq audio cfg seg s e
    match gw req with
    | .ok (best :: _) => (mergeSegment seg best "large", calls ++ [req])
    | .ok [] => (seg, calls ++ [req])
    | .error _ => (seg, calls ++ [req])
  else (seg, calls)

/-- Per-low-segment body of `retry_low_confidence`: strategy 1 first; it
replaces (and `continue`s) only when the response is non-empty and its
first segment has `low_confidence` present and false
(`not best.get("low_confidence", True)`); otherwise strategy 2 runs.  A
segment missing `start` or `end` raises `KeyError` inside both `try`
blocks before any request is built, so neither strategy issues a call.
The gateway oracle `gw` stands for `_post_with_retries` + `.json()` +
`.get("segments", [])`; `.error` is any exception (HTTP failure after the
configured retries, transport error, malformed body). -/
def processOne (gw : Gateway.RetryRequest → Except String (List Segment))
    (audio : String) (cfg : PipelineConfig) (seg : Segment) :
    Segment × List Gateway.RetryRequest :=
  match seg.start, seg.end_ with
  | some s, some e =>
    let req := mediumReq audio cfg seg s e
    (match gw req with
     | .ok (best :: _) =>
       if best.low_confidence.getD true = false then
         (mergeSegment seg best "medium", [req])
       else strategyB gw audio cfg seg s e [req]
     | .ok [] => strategyB gw audio cfg seg s e [req]
     | .error _ => strategyB gw audio cfg seg s e [req])
  | _, _ => (seg, [])

/-- src/batch_worker/pipeline/retry_transcribe.py `retry_low_confidence`,
also returning the list of issued gateway requests in call order.  Missing,
null or empty `audio_base64` returns the segments unchanged with no call;
so does an input with no low-confidence segment.  The Python loop rewrites
`segments[idx]` per low segment; the embedding maps over the list, which
yields the same final list because each iteration touches only its own
index. -/
def retry_low_confidence (gw : Gateway.RetryRequest → Except String (List Segment))
    (audio_base64 : Option String) (cfg : PipelineConfig) (segments : List Segment) :
    List Segment × List Gateway.RetryRequest :=
  match audio_base64 with
  | none => (segments, [])
  | some a =>
    if a = "" then (segments, [])
    else if segments.all (fun seg => !(seg.low_confidence.getD false)) then (segments, [])
    else
      let results := segments.map fun seg =>
        if seg.low_confidence.getD false then processOne gw a cfg seg else (seg, [])
      (results.map Prod.fst, (results.map Prod.snd).flatten)

end RetryStage

/-- Concrete low-confidence input segment for the C3 witness. -/
def c3LowSeg : Segment :=
  { start := some 0, end_ := some 2, text := some "x",
    avg_logprob := some (-2), low_confidence := some true }

/-- Confident retry segment returned by the C3 witness oracle. -/
def c3GoodSeg : Segment :=
  { start := some 0, end_ := some 2, text := some "y", low_confidence := some false }

/-- Concrete gateway oracle for the C3 witness: the medium model returns one
confident segment; anything else fails. -/
def gwC3 : Gateway.RetryRequest → Except String (List Segment) :=
  fun req =>
    if req.model = "KBLab/kb-whisper-medium" then .ok [c3GoodSeg] else .error "boom"


/-- src/batch_worker/context_profiles.py: one context profile dict.  Keys
that the `_flag` resolver of the runner probes with `in` are `Option`
(absent key = `none`). -/
structure ContextProfile where
  label : String
  description : String
  summary : Option Bool := none
  prompt : Option String := none
  pii : Option Bool := none
  diarization : Option Bool := none
  text_processing : Option Bool := none
  casing : Option String := none
  deriving DecidableEq, Repr

/-- src/batch_worker/context_profiles.py `CONTEXT_PROFILES` (insertion
order kept; literal braces of the prompt strings written as \x7b/\x7d). -/
def CONTEXT_PROFILES : List (String × ContextProfile) :=
  [("raw",
    { label := "Ratt transkript",
      description := "Ingen efterbearbetning, ratt text fran ASR",
      summary := some false, pii := some false, diarization := some false,
      text_processing := some false }),
   ("meeting",
    { label := "Mote",
      description := "Motesanteckningar med beslut och actions",
      summary := some true,
      prompt := some ("Du ar en assistent som sammanfattar motesanteckningar pa svenska.\n\nIdentifiera:\n1. Viktiga beslut som fattades\n2. Action items (vem ska gora vad)\n3. Nasta steg\n\nGe en kort sammanfattning (max 5 meningar) och lista alla action items.\n\nTranskription:\n{text}\n\nSvara i JSON-format: \x7b\x7b\x22summary\x22: \x22...\x22, \x22action_items\x22: [\x22...\x22]\x7d\x7d"),
      pii := some true, diarization := some true, text_processing := some true,
      casing := some "meeting_notes" }),
   ("brainstorm",
    { label := "Brainstorm",
      description := "Lista och gruppera ideer fran brainstorming",
      summary := some true,
      prompt := some ("Du ar en assistent som sammanfattar brainstorming-sessioner pa svenska.\n\nIdentifiera alla ideer som diskuterats och gruppera dem i kategorier.\nLista varje ide kort och koncist.\n\nTranskription:\n{text}\n\nSvara i JSON-format: \x7b\x7b\x22summary\x22: \x22...\x22, \x22action_items\x22: [\x22ide 1\x22, \x22ide 2\x22, ...]\x7d\x7d"),
      pii := some false, diarization := some false, text_processing := some true,
      casing := some "meeting_notes" }),
   ("journal",
    { label := "Dagbok",
      description := "Dagboksanteckningar och reflektioner",
      summary := some true,
      prompt := some ("Du ar en assistent som sammanfattar dagboksanteckningar pa svenska.\n\nFanga:\n1. Huvudsakliga reflektioner och kanslor\n2. Viktiga handelser\n3. Insikter och lardomar\n\nSkriv sammanfattningen i forsta person.\n\nTranskription:\n{text}\n\nSvara i JSON-format: \x7b\x7b\x22summary\x22: \x22...\x22, \x22action_items\x22: []\x7d\x7d"),
      pii := some true, diarization := some false, text_processing := some true,
      casing := some "meeting_notes" }),
   ("tech_notes",
    { label := "Tekniska anteckningar",
      description := "Teknisk dokumentation, bevara facktermer",
      summary := some true,
      prompt := some ("Du ar en assistent som sammanfattar tekniska anteckningar pa svenska.\n\nBevara alla tekniska termer, kodnamn och akronymer exakt som de namnts.\nStrukturera sammanfattningen med tydliga punkter.\n\nTranskription:\n{text}\n\nSvara i JSON-format: \x7b\x7b\x22summary\x22: \x22...\x22, \x22action_items\x22: []\x7d\x7d"),
      pii := some false, diarization := some false, text_processing := some false,
      casing := some "verbatim" })]

/-- src/batch_worker/context_profiles.py `get_profile`
(`CONTEXT_PROFILES.get(name)`). -/
def get_profile (name : String) : Option ContextProfile :=
  (CONTEXT_PROFILES.find? (fun p => p.1 = name)).map Prod.snd

/-- `{"summary": ..., "action_items": [...]}` parsed from the LLM. -/
structure Summary where
  summary : String
  action_items : List String
  deriving DecidableEq, Repr

namespace Runner

/-- Observable effects of src/batch_worker/pipeline/runner.py in order of
occurrence: `update_job` writes to the job store (status / current_step /
error; the `result_data` payload is elided), successful writes of the
result file, and rewrites of `session.json` by `_update_session_status`. -/
inductive Event where
  | jobUpdate (status : Option String) (current_step : Option String) (error : Option String)
  | fileWritten (filename : String)
  | sessionUpdate (status : String) (error : Option String)
  deriving DecidableEq, Repr

/-- File-system oracle for `_write_processed_result` /
`_update_session_status`: does the session directory exist, does the result
file write succeed, does `session.json` exist. -/
structure Fs where
  dirExists : Bool := true
  writeOk : Bool := true
  metaExists : Bool := true
  deriving DecidableEq, Repr

/-- External collaborators of the pipeline: the retry gateway, the language
detector, the diarizer and the summarizer (the latter two may raise, which
the runner turns into a failed job). -/
structure Oracles where
  gw : Gateway.RetryRequest → Except String (List Segment)
  detector : String → Except Unit (List LanguageDetect.LangCand)
  diarizeO : List Segment → Option String → Except String (List Segment)
  summarizeO : List Segment → Option String → Except String (Option Summary)

/-- `input_data` of a pipeline job (`POST /jobs` body). -/
structure PipelineInput where
  segments : List Segment := []
  language : Option String := none
  context_profile : Option String := none
  audio_base64 : Option String := none
  audio_path : Option String := none
  session_id : Option String := none
  deriving Repr

/-- Output filename of `_write_processed_result`:
`interpreted_{context}.json` when a (truthy) context profile name is on the
job, else `processed.json`. -/
def resultFilename (context_profile : Option String) : String :=
  match context_profile with
  | some c => if c ≠ "" then "interpreted_" ++ c ++ ".json" else "processed.json"
  | none => "processed.json"

/-- src/batch_worker/pipeline/runner.py `_update_session_status`: no-op when
`session.json` is missing. -/
def update_session_status (fs : Fs) (status : String) (error : Option String) : List Event :=
  if fs.metaExists then [.sessionUpdate status error] else []

/-- src/batch_worker/pipeline/runner.py `_write_processed_result`: bail out
when the session directory is missing or the file write fails; only after a
successful write is `session.json` marked completed. -/
def write_processed_result (fs : Fs) (context_profile : Option String) : List Event :=
  if fs.dirExists then
    if fs.writeOk then
      .fileWritten (resultFilename context_profile) :: update_session_status fs "completed" none
    else []
  else []

/-- The truthiness test `if session_id:` of the runner. -/
def sessionIdOpt (input : PipelineInput) : Option String :=
  match input.session_id with
  | some s => if s ≠ "" then some s else none
  | none => none

/-- `get_profile(name) if name else None` of `run_pipeline`. -/
def profileOf (input : PipelineInput) : Option ContextProfile :=
  match input.context_profile with
  | some n => if n ≠ "" then get_profile n else none
  | none => none

/-- The `_flag` resolver of `run_pipeline`: the profile value when the
profile names the key, else the config default. -/
def effFlag (profile : Option ContextProfile) (pk : ContextProfile → Option Bool)
    (dflt : Bool) : Bool :=
  match profile with
  | some p => (pk p).getD dflt
  | none => dflt

/-- Effective diarization flag of a job. -/
def effDiarization (cfg : PipelineConfig) (input : PipelineInput) : Bool :=
  effFlag (profileOf input) (fun p => p.diarization) cfg.diarization_enabled

/-- Effective summary flag of a job. -/
def effSummary (cfg : PipelineConfig) (input : PipelineInput) : Bool :=
  effFlag (profileOf input) (fun p => p.summary) cfg.summary_enabled

/-- Effective pii flag of a job. -/
def effPii (cfg : PipelineConfig) (input : PipelineInput) : Bool :=
  effFlag (profileOf input) (fun p => p.pii) cfg.pii_flagging_enabled

/-- Effective text_processing flag of a job. -/
def effTextProcessing (cfg : PipelineConfig) (input : PipelineInput) : Bool :=
  effFlag (profileOf input) (fun p => p.text_processing) cfg.text_processing_enabled

/-- Effective casing profile of a job
(`profile.get("casing", config.casing_profile)`). -/
def effCasing (cfg : PipelineConfig) (input : PipelineInput) : String :=
  match profileOf input with
  | some p => p.casing.getD cfg.casing_profile
  | none => cfg.casing_profile

/-- The stage section of src/batch_worker/pipeline/runner.py
`run_pipeline`: runs the six stages in order behind their effective flags,
returning the `current_step` names reported to the job store and either the
final segments plus summary or the message of the first raised exception
(diarization and summary, through their oracles, are the fallible
stages; the pure stages and the retry stage, which catches its own HTTP
errors, cannot raise). -/
def runStages (o : Oracles) (cfg : PipelineConfig) (input : PipelineInput) :
    List String × Except String (List Segment × Option Summary) :=
  let language := input.language.getD "sv"
  let segs0 := Confidence.evaluate_confidence input.segments
  let (steps1, segs1) :=
    if cfg.retry_enabled then
      (["confidence", "retry"],
        (RetryStage.retry_low_confidence o.gw input.audio_base64 cfg segs0).1)
    else (["confidence"], segs0)
  if effDiarization cfg input then
    match o.diarizeO segs1 input.audio_path with
    | .error e => (steps1 ++ ["diarization"], .error e)
    | .ok segs2 => runTail o cfg input language (steps1 ++ ["diarization"]) segs2
  else runTail o cfg input language steps1 segs1
where
  /-- Stages 2-5 (language_detect, text_processing, pii_flagging,
  summary). -/
  runTail (o : Oracles) (cfg : PipelineConfig) (input : PipelineInput)
      (language : String) (steps : List String) (segs : List Segment) :
      List String × Except String (List Segment × Option Summary) :=
    let (steps3, segs3) :=
      if cfg.language_detect_enabled then
        (steps ++ ["language_detect"],
          LanguageDetect.detect_segment_languages o.detector segs language)
      else (steps, segs)
    let (steps4, segs4) :=
      if effTextProcessing cfg input then
        (steps3 ++ ["text_processing"], TextProcessing.process_text segs3 (effCasing cfg input))
      else (steps3, segs3)
    let (steps5, segs5) :=
      if effPii cfg input then (steps4 ++ ["pii_flagging"], PiiFlagging.flag_pii segs4)
      else (steps4, segs4)
    if effSummary cfg input then
      match o.summarizeO segs5 ((profileOf input).bind (fun p => p.prompt)) with
      | .error e => (steps5 ++ ["summary"], .error e)
      | .ok summ => (steps5 ++ ["summary"], .ok (segs5, summ))
    else (steps5, .ok (segs5, none))

/-- Trace prefix common to both outcomes: the initial
`update_job(processing, init)` and one `update_job(current_step=...)` per
executed stage, followed by the outcome events. -/
def mkTrace (steps : List String) (tail : List Event) : List Event :=
  Event.jobUpdate (some "processing") (some "init") none ::
    (steps.map (fun s => Event.jobUpdate none (some s) none) ++ tail)

/-- src/batch_worker/pipeline/runner.py `run_pipeline` as its trace of
observable effects: the stage prefix, then on success
`update_job(completed, done, result)` followed — only afterwards — by the
result-file write and the session status update (when the job carries a
session id), and on a raised stage exception `update_job(failed, error)`
followed by the session failure update. -/
def run_pipeline (o : Oracles) (fs : Fs) (cfg : PipelineConfig) (input : PipelineInput) :
    List Event :=
  match (runStages o cfg input).2 with
  | .ok _ =>
    mkTrace (runStages o cfg input).1
      (Event.jobUpdate (some "completed") (some "done") none ::
        (match sessionIdOpt input with
         | some _ => write_processed_result fs input.context_profile
         | none => []))
  | .error e =>
    mkTrace (runStages o cfg input).1
      (Event.jobUpdate (some "failed") none (some e) ::
        (match sessionIdOpt input with
         | some _ => update_session_status fs "failed" (some e)
         | none => []))

/-- Trace check: every `jobUpdate` that persists status "completed" is
preceded by a successful write of the result file `fn`.  (`seen` carries
whether `fn` has been written yet.) -/
def writeBeforeJobCompleted (fn : String) : List Event → Bool → Bool
  | [], _ => true
  | e :: rest, seen =>
    match e with
    | .fileWritten f => writeBeforeJobCompleted fn rest (seen || f = fn)
    | .jobUpdate (some "completed") _ _ => seen && writeBeforeJobCompleted fn rest seen
    | _ => writeBeforeJobCompleted fn rest seen

/-- Trace check: every `sessionUpdate` that persists processing_status
"completed" is preceded by a successful write of the result file `fn`. -/
def writeBeforeSessionCompleted (fn : String) : List Event → Bool → Bool
  | [], _ => true
  | e :: rest, seen =>
    match e with
    | .fileWritten f => writeBeforeSessionCompleted fn rest (seen || f = fn)
    | .sessionUpdate s _ =>
      (if s = "completed" then seen else true) && writeBeforeSessionCompleted fn rest seen
    | _ => writeBeforeSessionCompleted fn rest seen

/-- Trace check: every result-file write is preceded by the `jobUpdate`
that persists status "completed" (the actual order of the source). -/
def jobCompletedBeforeWrite : List Event → Bool → Bool
  | [], _ => true
  | e :: rest, seen =>
    match e with
    | .jobUpdate (some "completed") _ _ => jobCompletedBeforeWrite rest true
    | .fileWritten _ => seen && jobCompletedBeforeWrite rest seen
    | _ => jobCompletedBeforeWrite rest seen

end Runner

/-- Claim C1 as stated: for every job with a session, the result-file write
precedes the persistence of job status "completed". -/
def claimC1Statement : Prop :=
  ∀ (o : Runner.Oracles) (fs : Runner.Fs) (cfg : PipelineConfig) (input : Runner.PipelineInput),
    Runner.sessionIdOpt input ≠ none →
    Runner.writeBeforeJobCompleted (Runner.resultFilename input.context_profile)
      (Runner.run_pipeline o fs cfg input) false = true

/-- Trivial oracles for concrete runner inputs: gateway and detector fail,
diarizer and summarizer are inert. -/
def oracles0 : Runner.Oracles :=
  { gw := fun _ => .error "gateway unavailable",
    detector := fun _ => .error (),
    diarizeO := fun segs _ => .ok segs,
    summarizeO := fun _ _ => .ok none }

/-- Concrete job input for the C1 counterexample: a session and no context
profile. -/
def c1Input : Runner.PipelineInput := { session_id := some "s1" }

/-- Concrete job input for the C10 witness: no audio, no session. -/
def c10Input : Runner.PipelineInput := { segments := [c3LowSeg] }


namespace Realtime

/-- Character class of `_NOISE_RE` in src/backend/routers/realtime.py:
whitespace and the listed punctuation. -/
def isNoiseChar (c : Char) : Bool :=
  isPyWs c ||
    c ∈ ['.', '!', '?', ',', ';', ':', '-', '\u2014', '\u2013', '\u2026',
         '\x27', '\x22', '\u00ab', '\u00bb', '(', ')', '[', ']']

/-- `_NOISE_RE.match(text)`: the regex `^[...]*$` matches exactly the
strings made only of noise characters (including the empty string). -/
def noiseMatch (text : String) : Bool := text.toList.all isNoiseChar

/-- Response dict of `transcribe_audio` as the handler reads it
(`result.get("text", "")`, `result.get("segments")`; other keys unused). -/
structure TranscriptResult where
  text : Option String := none
  segments : Option (List Segment) := none
  deriving DecidableEq, Repr

/-- A frame sent to the WebSocket caller. -/
inductive RtMessage where
  | transcript (text : String) (chunk : Nat) (profile : String)
      (segments : Option (List Segment))
  | error (msg : String)
  deriving DecidableEq, Repr

/-- Loop state of `websocket_transcribe`: the buffered raw chunks for the
final WAV concatenation, the buffered transcripts for session saving, the
frames sent to the caller, and the chunk counter. -/
structure RtState where
  audio_chunks : List (List Nat) := []
  transcripts : List TranscriptResult := []
  sent : List RtMessage := []
  chunk_index : Nat := 0
  deriving DecidableEq, Repr

/-- One iteration of the receive loop of src/backend/routers/realtime.py
`websocket_transcribe`, for a received binary chunk `data` (bytes as
naturals): empty frames and frames under 500 bytes are dropped before
anything else; accepted frames are buffered and handed to the transcriber
oracle; a response whose stripped text is empty or noise-only is neither
sent nor buffered as a transcript; transcription exceptions are reported
as error frames. -/
def websocket_receive_chunk (transcriber : List Nat → Except String TranscriptResult)
    (profile : String) (data : List Nat) (st : RtState) : RtState :=
  if data.length = 0 then st
  else if data.length < 500 then st
  else
    let st1 := { st with audio_chunks := st.audio_chunks ++ [data] }
    match transcriber data with
    | .error e => { st1 with sent := st1.sent ++ [.error e] }
    | .ok result =>
      let text := pyStrip (result.text.getD "")
      if text = "" || noiseMatch text then st1
      else
        { st1 with
          transcripts := st1.transcripts ++ [result],
          sent := st1.sent ++ [.transcript text st1.chunk_index profile result.segments],
          chunk_index := st1.chunk_index + 1 }

end Realtime

/-- Transcriber oracle for the C7 witness. -/
def rtTranscriber0 : List Nat → Except String Realtime.TranscriptResult :=
  fun _ => .ok { text := some " hej " }


namespace Interpret

/-- The keys of the session.json dict that
src/backend/routers/interpret.py `interpret_session` reads
(`session.get("segments", [])` and `session.get("audio_file")`). -/
structure Session where
  segments : List Segment := []
  audio_file : Option String := none
  deriving Repr

/-- Arguments of `submit_post_processing` as the handler builds them. -/
structure SubmitArgs where
  session_id : String
  segments : List Segment
  audio_path : Option String
  context_profile : String
  deriving Repr

/-- Response of `POST /api/interpret/{session_id}`. -/
structure InterpretResponse where
  session_id : String
  context : String
  job_id : String
  poll_url : String
  deriving DecidableEq, Repr

/-- src/backend/services/session_storage.py `SESSIONS_DIR` default. -/
def SESSIONS_DIR : String := "/app/transcriptions/sessions"

/-- `os.path.join(SESSIONS_DIR, session_id, session["audio_file"])` behind
the truthiness test `if session.get("audio_file"):`. -/
def audioPathOf (session : Session) (session_id : String) : Option String :=
  match session.audio_file with
  | some f => if f ≠ "" then some (SESSIONS_DIR ++ "/" ++ session_id ++ "/" ++ f) else none
  | none => none

/-- The job submission the handler builds for a session with segments:
the raw segments of session.json plus the chosen context profile. -/
def submittedArgs (session : Session) (session_id context : String) : SubmitArgs :=
  { session_id := session_id, segments := session.segments,
    audio_path := audioPathOf session session_id, context_profile := context }

/-- src/backend/routers/interpret.py `interpret_session`.  `sessions` is the
read-only `get_session` lookup; `submit` is the `submit_post_processing`
call, returning the job id (`none` / empty modelling a falsy `job_id`).
The handler performs no session write in the source, which the embedding
mirrors by producing none; the second component lists the submitted jobs. -/
def interpret_session (sessions : String → Option Session)
    (submit : SubmitArgs → Option String) (session_id context : String) :
    Except Gateway.HErr InterpretResponse × List SubmitArgs :=
  match sessions session_id with
  | none => (.error { code := 404, detail := "Session hittades inte" }, [])
  | some session =>
    if session.segments = [] then
      (.error { code := 400, detail := "Sessionen har inga segment" }, [])
    else
      let args : SubmitArgs := submittedArgs session session_id context
      match submit args with
      | none => (.error { code := 500, detail := "Kunde inte skapa tolkningsjobb" }, [args])
      | some job_id =>
        if job_id = "" then
          (.error { code := 500, detail := "Kunde inte skapa tolkningsjobb" }, [args])
        else
          (.ok { session_id := session_id, context := context, job_id := job_id,
                 poll_url := "/api/jobs/" ++ job_id }, [args])

end Interpret

/-- Session store for the C8 witness: "empty" has no segments, "full" has
one raw segment. -/
def c8Sessions : String → Option Interpret.Session :=
  fun sid =>
    if sid = "empty" then some { segments := [] }
    else if sid = "full" then some { segments := [c3LowSeg], audio_file := some "audio.wav" }
    else none

/-- Job submitter for the C8 witness. -/
def c8Submit : Interpret.SubmitArgs → Option String := fun _ => some "job-1"

-- ===== THEOREMS =====

lemma ratDiv_eq (a b : ℚ) : ratDiv a b = a / b := (Rat.div_def' a b).symm

lemma qadd_eq (a b : ℚ) : qadd a b = a + b := by
  conv_rhs => rw [← Rat.num_divInt_den a, ← Rat.num_divInt_den b]
  rw [qadd, Rat.divInt_add_divInt _ _ (by exact_mod_cast a.den_nz) (by exact_mod_cast b.den_nz)]

lemma getD_lt_iff (o : Option ℚ) (d t : ℚ) (hd : ¬ d < t) :
    (o.getD d < t) ↔ ∃ a, o = some a ∧ a < t := by
  cases o <;> simp [hd]

lemma getD_gt_iff (o : Option ℚ) (d t : ℚ) (hd : ¬ d > t) :
    (o.getD d > t) ↔ ∃ a, o = some a ∧ a > t := by
  cases o <;> simp [hd]

lemma getD_words_iff (o : Option (List Word)) (R : List Word → Prop) :
    (o.getD [] ≠ [] ∧ R (o.getD [])) ↔ ∃ ws, o = some ws ∧ ws ≠ [] ∧ R ws := by
  cases o <;> simp

lemma ilcd_or (seg : Segment) :
    Confidence._is_low_confidence_dict seg = true ↔
      (seg.avg_logprob.getD 0 < -1 ∨ seg.compression_ratio.getD 0 > mkRat 24 10 ∨
        seg.no_speech_prob.getD 0 > mkRat 6 10 ∨
        (seg.words.getD [] ≠ [] ∧
          ratDiv (((seg.words.getD []).filter (fun w => w.probability.getD 1 < mkRat 3 10)).length : ℚ)
            ((seg.words.getD []).length : ℚ) > mkRat 3 10)) := by
  unfold Confidence._is_low_confidence_dict
  split_ifs <;> simp [*]

lemma api_confidence_eq (seg : Segment) :
    ApiServer._is_low_confidence_dict seg = Confidence._is_low_confidence_dict seg := by
  have h0a : ¬ ((0:ℚ) < -1) := by norm_num
  have h0c : ¬ ((0:ℚ) > mkRat 24 10) := by norm_num [Rat.mkRat_eq_div]
  have h0n : ¬ ((0:ℚ) > mkRat 6 10) := by norm_num [Rat.mkRat_eq_div]
  unfold ApiServer._is_low_confidence_dict ApiServer._is_low_confidence_dict._rest1
    ApiServer._is_low_confidence_dict._rest2 ApiServer._is_low_confidence_dict._rest3
    Confidence._is_low_confidence_dict
  cases ha : seg.avg_logprob <;> cases hc : seg.compression_ratio <;>
    cases hn : seg.no_speech_prob <;>
    simp [ha, hc, hn, h0a, h0c, h0n]

set_option maxHeartbeats 1600000 in
/-- C2: the confidence stage computes `low_confidence` as exactly the spec
disjunction (`avg_logprob < -1.0` OR `compression_ratio > 2.4` OR
`no_speech_prob > 0.6` OR non-empty `words` with a fraction of
`probability < 0.3` words strictly exceeding 0.3); a missing field never
triggers its branch.  In particular 3 of 10 low words do not trigger, 4 of
10 do, and `compression_ratio` exactly 2.4 does not trigger.  Both copies of
the heuristic (pipeline and api_server) agree. -/
theorem claim_C2_low_confidence_disjunction :
    (∀ seg, Confidence._is_low_confidence_dict seg = true ↔ lowConfidenceSpec seg) ∧
    Confidence._is_low_confidence_dict (segTenWords 3) = false ∧
    Confidence._is_low_confidence_dict (segTenWords 4) = true ∧
    Confidence._is_low_confidence_dict segCompression24 = false ∧
    (∀ seg, ApiServer._is_low_confidence_dict seg = Confidence._is_low_confidence_dict seg) := by
  refine ⟨?_, by decide, by decide, by decide, api_confidence_eq⟩
  intro seg
  rw [ilcd_or]
  unfold lowConfidenceSpec
  have e24 : (mkRat 24 10 : ℚ) = 24/10 := by norm_num [Rat.mkRat_eq_div]
  have e6 : (mkRat 6 10 : ℚ) = 6/10 := by norm_num [Rat.mkRat_eq_div]
  have e3 : (mkRat 3 10 : ℚ) = 3/10 := by norm_num [Rat.mkRat_eq_div]
  simp only [ratDiv_eq, e24, e6, e3]
  exact or_congr (getD_lt_iff _ _ _ (by norm_num))
    (or_congr (getD_gt_iff _ _ _ (by norm_num))
      (or_congr (getD_gt_iff _ _ _ (by norm_num))
        (getD_words_iff seg.words (fun ws =>
          ((ws.filter (fun w => w.probability.getD 1 < 3/10)).length : ℚ) / (ws.length : ℚ) > 3/10))))

/-- C9: running the text_processing stage with casing_profile "verbatim" is
the identity transform: the returned list is the input list, with no
processed_text or subtitle_lines added and no field changed. -/
theorem claim_C9_verbatim_identity :
    ∀ segments : List Segment, TextProcessing.process_text segments "verbatim" = segments := by
  intro segments
  simp [TextProcessing.process_text]

/-- C6: in the language_detect stage a segment whose trimmed text is shorter
than 10 characters inherits the file-level language with confidence 1.0 and
language_switch=false; with 10 or more characters, text-based language ID
runs on the trimmed text, detected_language is the top candidate,
language_confidence its probability rounded to 4 decimals, and
language_switch is true exactly when the detected language differs from the
file language. -/
theorem claim_C6_language_detect (detector : String → Except Unit (List LanguageDetect.LangCand))
    (file_language : String) (segments : List Segment) (i : Nat) (seg : Segment)
    (hget : segments[i]? = some seg) :
    ((pyStrip (seg.text.getD "")).length < 10 →
      (LanguageDetect.detect_segment_languages detector segments file_language)[i]? =
        some { seg with detected_language := some file_language,
                        language_confidence := some 1, language_switch := some false }) ∧
    (∀ best rest, 10 ≤ (pyStrip (seg.text.getD "")).length →
      detector (pyStrip (seg.text.getD "")) = .ok (best :: rest) →
      (LanguageDetect.detect_segment_languages detector segments file_language)[i]? =
        some { seg with detected_language := some best.lang,
                        language_confidence := some (roundTo 4 best.prob),
                        language_switch := some (best.lang != file_language) } ∧
        ((best.lang != file_language) = true ↔ best.lang ≠ file_language)) := by
  constructor
  · intro hshort
    simp [LanguageDetect.detect_segment_languages, List.getElem?_map, hget,
      LanguageDetect.MIN_TEXT_LENGTH, hshort]
  · intro best rest hlong hdet
    have hnlt : ¬ ((pyStrip (seg.text.getD "")).length < LanguageDetect.MIN_TEXT_LENGTH) := by
      simp only [LanguageDetect.MIN_TEXT_LENGTH]
      omega
    refine ⟨?_, bne_iff_ne⟩
    simp [LanguageDetect.detect_segment_languages, List.getElem?_map, hget, hnlt, hdet]

/-- Witness for C6 at a concrete input: an 11-character text goes through
the detector oracle and receives its top candidate. -/
theorem claim_C6_language_detect_witness :
    (LanguageDetect.detect_segment_languages lgDetector0 [lgSeg0] "sv")[0]? =
      some { lgSeg0 with detected_language := some "en",
                         language_confidence := some (roundTo 4 (mkRat 9 10)),
                         language_switch := some ("en" != "sv") } :=
  ((claim_C6_language_detect lgDetector0 "sv" [lgSeg0] 0 lgSeg0 rfl).2
    { lang := "en", prob := mkRat 9 10 } [] (by decide) rfl).1

/-- C5 counterexample: the claim says the stage scans `processed_text`
whenever it is present; on a segment whose `text` is "hej" (no PII) and
whose `processed_text` is "a@b.se" (an email address) the stage scans
`text` and reports no PII, so the claim as stated is false. -/
theorem claim_C5_counterexample : ¬ claimC5Statement :=
  fun h => absurd (h piiSeg0) (by decide)

/-- C5 amended: the pii_flagging stage scans the segment's `text` whenever
it is present and non-empty, and otherwise its `processed_text`
(`PiiFlagging.codeScanText`); it sets `pii_flags` to the list of
personnummer/email/telefon/profanity hits of that text (possibly empty),
sets `has_pii` exactly when that list is non-empty, and leaves every other
field, including the scanned text, unmodified.  On the §8 scenario text the
scan yields exactly an email flag and a telefon flag. -/
theorem claim_C5_pii_amended :
    (∀ segments, PiiFlagging.flag_pii segments = segments.map PiiFlagging.flagOne) ∧
    (∀ seg, PiiFlagging.flagOne seg =
      { seg with pii_flags := some (PiiFlagging.piiScan (PiiFlagging.codeScanText seg)),
                 has_pii := some ((PiiFlagging.piiScan (PiiFlagging.codeScanText seg)).length > 0) }) ∧
    (∀ seg, (PiiFlagging.flagOne seg).has_pii = some true ↔
      PiiFlagging.piiScan (PiiFlagging.codeScanText seg) ≠ []) ∧
    PiiFlagging.flagOne annaSeg =
      { annaSeg with
          pii_flags := some
            [{ type := "email", start_char := 32, end_char := 47, text := "anna@example.se" },
             { type := "telefon", start_char := 67, end_char := 80, text := "070-123 45 67" }],
          has_pii := some true } := by
  refine ⟨fun _ => rfl, fun _ => rfl, ?_, by decide⟩
  intro seg
  simp [PiiFlagging.flagOne, List.length_pos]

lemma retryWindow_eq_filter (s e : ℚ) (l : List Gateway.FwSegment)
    (hsorted : l.Pairwise (fun a b => a.start ≤ b.start)) :
    Gateway.retryWindow s e l =
      (l.filter (fun sg => decide (s ≤ sg.end_) && decide (sg.start ≤ e))).map
        Gateway._format_segment := by
  induction l with
  | nil => simp [Gateway.retryWindow]
  | cons seg rest ih =>
    have hall := (List.pairwise_cons.mp hsorted).1
    have htail := (List.pairwise_cons.mp hsorted).2
    by_cases h1 : seg.end_ < s
    · have hns : ¬ (s ≤ seg.end_) := not_le.mpr h1
      simp [Gateway.retryWindow, h1, List.filter_cons, hns, ih htail]
    · by_cases h2 : e < seg.start
      · have hne : ¬ (seg.start ≤ e) := not_le.mpr h2
        have hrest : rest.filter (fun sg => decide (s ≤ sg.end_) && decide (sg.start ≤ e)) = [] := by
          rw [List.filter_eq_nil_iff]
          intro a ha
          have h3 := hall a ha
          simp only [Bool.and_eq_true, decide_eq_true_eq, not_and]
          intro _
          linarith
        simp [Gateway.retryWindow, h1, h2, List.filter_cons, hne, hrest]
      · have hs : s ≤ seg.end_ := not_lt.mp h1
        have he : seg.start ≤ e := not_lt.mp h2
        simp [Gateway.retryWindow, h1, h2, List.filter_cons, hs, he, ih htail]

/-- C4: the gateway retry operation transcribes the whole blob (the oracle
receives the full base64 audio, never a slice) and, when the model yields
its segments in transcription (start-sorted) order, returns exactly the
formatted segments whose interval overlaps `[start, end]`, in order —
segments with `end < start` are skipped and iteration stops at the first
`start > end`.  Model and beam size are echoed. -/
theorem claim_C4_retry_whole_blob_overlap
    (mt : String → String → List Gateway.FwSegment × Gateway.TranscribeInfo)
    (req : Gateway.RetryRequest) (audio : String)
    (haudio : req.audio_base64 = some audio) (hne : audio ≠ "")
    (hsorted : (mt req.model audio).1.Pairwise (fun a b => a.start ≤ b.start)) :
    ∃ resp, Gateway.transcribe_retry mt req = .ok resp ∧
      resp.segments = ((mt req.model audio).1.filter
          (fun sg => decide (req.start ≤ sg.end_) && decide (sg.start ≤ req.end_))).map
        Gateway._format_segment ∧
      resp.model = req.model ∧ resp.beam_size = req.beam_size := by
  have hstep : Gateway.transcribe_retry mt req = .ok
      { segments := Gateway.retryWindow req.start req.end_ (mt req.model audio).1,
        language := (mt req.model audio).2.language,
        language_probability :=
          match (mt req.model audio).2.language_probability with
          | some p => if p ≠ 0 then some (roundTo 4 p) else none
          | none => none,
        model := req.model, beam_size := req.beam_size } := by
    rw [Gateway.transcribe_retry, haudio]
    simp [hne]
  exact ⟨_, hstep, retryWindow_eq_filter req.start req.end_ _ hsorted, rfl, rfl⟩

/-- Witness for C4 at a concrete input: of three sorted segments only the
middle one overlaps the window [3, 5]. -/
theorem claim_C4_retry_whole_blob_overlap_witness :
    ∃ resp, Gateway.transcribe_retry c4Oracle c4Req = .ok resp ∧
      resp.segments = [Gateway._format_segment
        { start := 2, end_ := 4, text := "b", avg_logprob := 0,
          compression_ratio := 1, no_speech_prob := 0 }] := by
  obtain ⟨resp, h1, h2, _, _⟩ :=
    claim_C4_retry_whole_blob_overlap c4Oracle c4Req "blob" rfl (by decide) (by decide)
  refine ⟨resp, h1, ?_⟩
  rw [h2]
  decide

lemma retry_result_getElem (gw : Gateway.RetryRequest → Except String (List Segment))
    (cfg : PipelineConfig) (audio : String) (hne : audio ≠ "") (segs : List Segment) (i : Nat) :
    (RetryStage.retry_low_confidence gw (some audio) cfg segs).1[i]? =
      segs[i]?.map (fun seg =>
        if seg.low_confidence.getD false then (RetryStage.processOne gw audio cfg seg).1
        else seg) := by
  simp only [RetryStage.retry_low_confidence, if_neg hne]
  by_cases hall : segs.all (fun seg => !(seg.low_confidence.getD false))
  · rw [if_pos hall]
    cases hseg : segs[i]? with
    | none => rfl
    | some seg =>
      have hmem : seg ∈ segs := by
        obtain ⟨h, rfl⟩ := List.getElem?_eq_some.mp hseg
        exact List.getElem_mem h
      have hlowf := (List.all_eq_true.mp hall) seg hmem
      simp only [Bool.not_eq_true'] at hlowf
      simp [hlowf]
  · rw [if_neg hall]
    simp only [List.getElem?_map, Option.map_map]
    cases segs[i]? with
    | none => rfl
    | some seg => by_cases hlow : seg.low_confidence.getD false <;> simp [hlow]

/-- C3: in the retry stage, for every segment marked low_confidence,
Strategy A calls the gateway with the medium model at the configured retry
beam size and replaces the segment only if the first returned retry segment
is not low-confidence; otherwise Strategy B runs exactly when
retry_with_large is enabled, calling the large model and replacing
unconditionally on a non-empty response; every replaced segment gains
retried=true and retry_model "medium" / "large"; segments not marked
low_confidence are returned unchanged and never generate a gateway call. -/
theorem claim_C3_retry_strategies (gw : Gateway.RetryRequest → Except String (List Segment))
    (cfg : PipelineConfig) (audio : String) (hne : audio ≠ "") (segs : List Segment) :
    ((∀ i : Nat, (RetryStage.retry_low_confidence gw (some audio) cfg segs).1[i]? =
        segs[i]?.map (fun seg =>
          if seg.low_confidence.getD false then (RetryStage.processOne gw audio cfg seg).1
          else seg)) ∧
     (∀ req, req ∈ (RetryStage.retry_low_confidence gw (some audio) cfg segs).2 →
        ∃ seg, seg ∈ segs ∧ seg.low_confidence.getD false = true ∧
          req ∈ (RetryStage.processOne gw audio cfg seg).2)) ∧
    (∀ seg s e, (RetryStage.mediumReq audio cfg seg s e).model = "KBLab/kb-whisper-medium" ∧
      (RetryStage.mediumReq audio cfg seg s e).beam_size = cfg.retry_beam_size ∧
      (RetryStage.largeReq audio cfg seg s e).model = "KBLab/kb-whisper-large" ∧
      (RetryStage.largeReq audio cfg seg s e).beam_size = cfg.retry_beam_size) ∧
    (∀ seg s e best rest, seg.start = some s → seg.end_ = some e →
      gw (RetryStage.mediumReq audio cfg seg s e) = .ok (best :: rest) →
      (best.low_confidence = some false →
        RetryStage.processOne gw audio cfg seg =
          (RetryStage.mergeSegment seg best "medium", [RetryStage.mediumReq audio cfg seg s e])) ∧
      (best.low_confidence ≠ some false →
        RetryStage.processOne gw audio cfg seg =
          RetryStage.strategyB gw audio cfg seg s e [RetryStage.mediumReq audio cfg seg s e])) ∧
    (∀ seg s e calls,
      (cfg.retry_with_large = false →
        RetryStage.strategyB gw audio cfg seg s e calls = (seg, calls)) ∧
      (∀ best rest, cfg.retry_with_large = true →
        gw (RetryStage.largeReq audio cfg seg s e) = .ok (best :: rest) →
        RetryStage.strategyB gw audio cfg seg s e calls =
          (RetryStage.mergeSegment seg best "large",
            calls ++ [RetryStage.largeReq audio cfg seg s e]))) ∧
    (∀ seg best m, (RetryStage.mergeSegment seg best m).retried = some true ∧
      (RetryStage.mergeSegment seg best m).retry_model = some m) := by
  refine ⟨⟨retry_result_getElem gw cfg audio hne segs, ?_⟩, fun _ _ _ => ⟨rfl, rfl, rfl, rfl⟩,
    ?_, ?_, fun _ _ _ => ⟨rfl, rfl⟩⟩
  · intro req hreq
    simp only [RetryStage.retry_low_confidence, if_neg hne] at hreq
    by_cases hall : segs.all (fun seg => !(seg.low_confidence.getD false))
    · rw [if_pos hall] at hreq
      simp at hreq
    · rw [if_neg hall] at hreq
      simp only [List.mem_flatten, List.mem_map] at hreq
      obtain ⟨l, ⟨pr, ⟨seg, hmem, hpr⟩, hsnd⟩, hin⟩ := hreq
      by_cases hlow : seg.low_confidence.getD false
      · refine ⟨seg, hmem, hlow, ?_⟩
        rw [← hpr] at hsnd
        simp only [hlow, if_pos] at hsnd
        rw [← hsnd] at hin
        exact hin
      · exfalso
        rw [← hpr] at hsnd
        simp only [hlow] at hsnd
        rw [← hsnd] at hin
        simp at hin
  · intro seg s e best rest hs he hgw
    constructor
    · intro hbest
      rw [RetryStage.processOne, hs, he]
      simp [hgw, hbest]
    · intro hbest
      rw [RetryStage.processOne, hs, he]
      have : best.low_confidence.getD true ≠ false := by
        cases hb : best.low_confidence with
        | none => simp
        | some b =>
          cases b with
          | false => exact absurd hb hbest
          | true => simp
      simp [hgw, this]
  · intro seg s e calls
    constructor
    · intro hlarge
      rw [RetryStage.strategyB, hlarge]
      simp
    · intro best rest hlarge hgw
      rw [RetryStage.strategyB, hlarge]
      simp [hgw]

/-- Witness for C3 at a concrete input: a low-confidence segment is
replaced through Strategy A by the confident retry segment of the oracle,
gaining retried=true and retry_model="medium". -/
theorem claim_C3_retry_strategies_witness :
    RetryStage.processOne gwC3 "blob" ({} : PipelineConfig) c3LowSeg =
      (RetryStage.mergeSegment c3LowSeg c3GoodSeg "medium",
        [RetryStage.mediumReq "blob" ({} : PipelineConfig) c3LowSeg 0 2]) ∧
    (RetryStage.mergeSegment c3LowSeg c3GoodSeg "medium").retried = some true ∧
    (RetryStage.mergeSegment c3LowSeg c3GoodSeg "medium").retry_model = some "medium" := by
  obtain ⟨_, _, hA, _, hmerge⟩ :=
    claim_C3_retry_strategies gwC3 ({} : PipelineConfig) "blob" (by decide) [c3LowSeg]
  exact ⟨(hA c3LowSeg 0 2 c3GoodSeg [] rfl rfl rfl).1 rfl,
    (hmerge c3LowSeg c3GoodSeg "medium").1, (hmerge c3LowSeg c3GoodSeg "medium").2⟩


lemma wbsc_jobs (fn : String) (steps : List String) (tail : List Runner.Event) (seen : Bool) :
    Runner.writeBeforeSessionCompleted fn
      (steps.map (fun s => Runner.Event.jobUpdate none (some s) none) ++ tail) seen =
      Runner.writeBeforeSessionCompleted fn tail seen := by
  induction steps with
  | nil => rfl
  | cons s t ih => simpa [Runner.writeBeforeSessionCompleted] using ih

lemma jcbw_jobs (steps : List String) (tail : List Runner.Event) (seen : Bool) :
    Runner.jobCompletedBeforeWrite
      (steps.map (fun s => Runner.Event.jobUpdate none (some s) none) ++ tail) seen =
      Runner.jobCompletedBeforeWrite tail seen := by
  induction steps with
  | nil => rfl
  | cons s t ih => simpa [Runner.jobCompletedBeforeWrite] using ih

lemma wbsc_mkTrace (fn : String) (steps : List String) (tail : List Runner.Event) :
    Runner.writeBeforeSessionCompleted fn (Runner.mkTrace steps tail) false =
      Runner.writeBeforeSessionCompleted fn tail false := by
  rw [Runner.mkTrace]
  show Runner.writeBeforeSessionCompleted fn
    (steps.map (fun s => Runner.Event.jobUpdate none (some s) none) ++ tail) false = _
  exact wbsc_jobs fn steps tail false

lemma jcbw_mkTrace (steps : List String) (tail : List Runner.Event) :
    Runner.jobCompletedBeforeWrite (Runner.mkTrace steps tail) false =
      Runner.jobCompletedBeforeWrite tail false := by
  rw [Runner.mkTrace]
  show Runner.jobCompletedBeforeWrite
    (steps.map (fun s => Runner.Event.jobUpdate none (some s) none) ++ tail) false = _
  exact jcbw_jobs steps tail false

/-- C1 counterexample: on a job with a session (trivial oracles, default
config, healthy file system) the runner persists job status "completed"
*before* writing the result file, so the claim as stated is false. -/
theorem claim_C1_counterexample : ¬ claimC1Statement :=
  fun h => absurd (h oracles0 {} {} c1Input (by decide)) (by decide)

/-- C1 amended: the write of the result file (processed.json without a
context profile, else interpreted_{context}.json) completes before
session.json's processing_status is persisted as "completed" — an observer
of session.json that reads processing_status "completed" finds the result
file present.  The job record's status "completed", however, is always
persisted before the result file is written (second scan), as the concrete
trace of a default job with a session shows. -/
theorem claim_C1_writeback_order_amended :
    (∀ (o : Runner.Oracles) (fs : Runner.Fs) (cfg : PipelineConfig)
        (input : Runner.PipelineInput),
      Runner.writeBeforeSessionCompleted (Runner.resultFilename input.context_profile)
        (Runner.run_pipeline o fs cfg input) false = true) ∧
    (∀ (o : Runner.Oracles) (fs : Runner.Fs) (cfg : PipelineConfig)
        (input : Runner.PipelineInput),
      Runner.jobCompletedBeforeWrite (Runner.run_pipeline o fs cfg input) false = true) ∧
    Runner.run_pipeline oracles0 {} {} c1Input =
      [.jobUpdate (some "processing") (some "init") none,
       .jobUpdate none (some "confidence") none,
       .jobUpdate none (some "retry") none,
       .jobUpdate none (some "language_detect") none,
       .jobUpdate none (some "text_processing") none,
       .jobUpdate none (some "pii_flagging") none,
       .jobUpdate (some "completed") (some "done") none,
       .fileWritten "processed.json",
       .sessionUpdate "completed" none] := by
  refine ⟨?_, ?_, by decide⟩
  · intro o fs cfg input
    cases hres : (Runner.runStages o cfg input).2 with
    | ok v =>
      simp only [Runner.run_pipeline, hres]
      rw [wbsc_mkTrace]
      cases hsid : Runner.sessionIdOpt input with
      | none => rfl
      | some sid =>
        simp only [Runner.writeBeforeSessionCompleted]
        rw [Runner.write_processed_result]
        by_cases hd : fs.dirExists
        · by_cases hw : fs.writeOk
          · by_cases hm : fs.metaExists <;>
              simp [hd, hw, hm, Runner.update_session_status,
                Runner.writeBeforeSessionCompleted]
          · simp [hd, hw, Runner.writeBeforeSessionCompleted]
        · simp [hd, Runner.writeBeforeSessionCompleted]
    | error e =>
      simp only [Runner.run_pipeline, hres]
      rw [wbsc_mkTrace]
      cases hsid : Runner.sessionIdOpt input with
      | none => rfl
      | some sid =>
        simp only [Runner.writeBeforeSessionCompleted]
        rw [Runner.update_session_status]
        by_cases hm : fs.metaExists <;>
          simp [hm, Runner.writeBeforeSessionCompleted]
  · intro o fs cfg input
    cases hres : (Runner.runStages o cfg input).2 with
    | ok v =>
      simp only [Runner.run_pipeline, hres]
      rw [jcbw_mkTrace]
      cases hsid : Runner.sessionIdOpt input with
      | none => rfl
      | some sid =>
        simp only [Runner.jobCompletedBeforeWrite]
        rw [Runner.write_processed_result]
        by_cases hd : fs.dirExists
        · by_cases hw : fs.writeOk
          · by_cases hm : fs.metaExists <;>
              simp [hd, hw, hm, Runner.update_session_status,
                Runner.jobCompletedBeforeWrite]
          · simp [hd, hw, Runner.jobCompletedBeforeWrite]
        · simp [hd, Runner.jobCompletedBeforeWrite]
    | error e =>
      simp only [Runner.run_pipeline, hres]
      rw [jcbw_mkTrace]
      cases hsid : Runner.sessionIdOpt input with
      | none => rfl
      | some sid =>
        simp only [Runner.jobCompletedBeforeWrite]
        rw [Runner.update_session_status]
        by_cases hm : fs.metaExists <;>
          simp [hm, Runner.jobCompletedBeforeWrite]

lemma runStages_ok_of_flags (o : Runner.Oracles) (cfg : PipelineConfig)
    (input : Runner.PipelineInput) (hr : cfg.retry_enabled = true)
    (hd : Runner.effDiarization cfg input = false)
    (hs : Runner.effSummary cfg input = false) :
    "retry" ∈ (Runner.runStages o cfg input).1 ∧
      ∃ segs, (Runner.runStages o cfg input).2 = .ok (segs, none) := by
  simp only [Runner.runStages, hr, hd, if_true, Bool.false_eq_true, if_false]
  simp only [Runner.runStages.runTail, hs]
  by_cases hl : cfg.language_detect_enabled <;>
    by_cases ht : Runner.effTextProcessing cfg input <;>
    by_cases hp : Runner.effPii cfg input <;>
    simp [hl, ht, hp]

/-- C10: when the retry stage is enabled but the job input carries no
audio_base64 (absent, null or empty), the stage returns the segment list
unchanged, contacts the gateway with no request, and the pipeline proceeds
through the remaining stages: provided the other fallible stages are off
(the default configuration), the job still reaches status "completed" and
the "retry" step is reported. -/
theorem claim_C10_retry_without_audio :
    (∀ (gw : Gateway.RetryRequest → Except String (List Segment)) (cfg : PipelineConfig)
        (segs : List Segment),
      RetryStage.retry_low_confidence gw none cfg segs = (segs, [])) ∧
    (∀ (gw : Gateway.RetryRequest → Except String (List Segment)) (cfg : PipelineConfig)
        (segs : List Segment),
      RetryStage.retry_low_confidence gw (some "") cfg segs = (segs, [])) ∧
    (∀ (o : Runner.Oracles) (fs : Runner.Fs) (cfg : PipelineConfig)
        (input : Runner.PipelineInput),
      input.audio_base64 = none → cfg.retry_enabled = true →
      Runner.effDiarization cfg input = false → Runner.effSummary cfg input = false →
      "retry" ∈ (Runner.runStages o cfg input).1 ∧
      Runner.Event.jobUpdate (some "completed") (some "done") none ∈
        Runner.run_pipeline o fs cfg input) := by
  refine ⟨fun _ _ _ => rfl, fun _ _ _ => rfl, ?_⟩
  intro o fs cfg input _ hr hd hs
  obtain ⟨hmem, segs, hres⟩ := runStages_ok_of_flags o cfg input hr hd hs
  refine ⟨hmem, ?_⟩
  simp only [Runner.run_pipeline, hres]
  simp [Runner.mkTrace, List.mem_append]

/-- Witness for C10 at a concrete input: a job with one low-confidence
segment and no audio passes the retry stage unchanged with no gateway call
and completes under the default configuration. -/
theorem claim_C10_retry_without_audio_witness :
    RetryStage.retry_low_confidence oracles0.gw none {} [c3LowSeg] = ([c3LowSeg], []) ∧
    Runner.Event.jobUpdate (some "completed") (some "done") none ∈
      Runner.run_pipeline oracles0 {} {} c10Input :=
  ⟨claim_C10_retry_without_audio.1 oracles0.gw {} [c3LowSeg],
   (claim_C10_retry_without_audio.2.2 oracles0 {} {} c10Input rfl rfl rfl rfl).2⟩

/-- C7: in the real-time stream handler every chunk under 500 bytes is
dropped before transcription (the state, including the audio buffer, is
untouched and the transcriber is never consulted); every chunk of 500 bytes
or more is buffered for WAV concatenation and handed to the transcriber; a
transcription response whose stripped text is empty or noise-only is
neither sent to the caller nor buffered as a transcript, while a
substantive response is both buffered and sent. -/
theorem claim_C7_realtime_chunk_rules
    (tr : List Nat → Except String Realtime.TranscriptResult) (profile : String)
    (data : List Nat) (st : Realtime.RtState) :
    (data.length < 500 → Realtime.websocket_receive_chunk tr profile data st = st) ∧
    (500 ≤ data.length →
      (Realtime.websocket_receive_chunk tr profile data st).audio_chunks =
        st.audio_chunks ++ [data] ∧
      (∀ result, tr data = .ok result →
        (pyStrip (result.text.getD "") = "" ∨
          Realtime.noiseMatch (pyStrip (result.text.getD "")) = true) →
        (Realtime.websocket_receive_chunk tr profile data st).transcripts = st.transcripts ∧
        (Realtime.websocket_receive_chunk tr profile data st).sent = st.sent) ∧
      (∀ result, tr data = .ok result →
        pyStrip (result.text.getD "") ≠ "" →
        Realtime.noiseMatch (pyStrip (result.text.getD "")) = false →
        (Realtime.websocket_receive_chunk tr profile data st).transcripts =
          st.transcripts ++ [result] ∧
        (Realtime.websocket_receive_chunk tr profile data st).sent =
          st.sent ++ [.transcript (pyStrip (result.text.getD "")) st.chunk_index profile
            result.segments])) := by
  constructor
  · intro hshort
    by_cases h0 : data.length = 0 <;>
      simp [Realtime.websocket_receive_chunk, h0, hshort]
  · intro hlong
    have h0 : ¬ (data.length = 0) := by omega
    have h5 : ¬ (data.length < 500) := by omega
    refine ⟨?_, ?_, ?_⟩
    · cases htr : tr data with
      | error e => simp [Realtime.websocket_receive_chunk, h0, h5, htr]
      | ok result =>
        by_cases hn : pyStrip (result.text.getD "") = "" ∨
            Realtime.noiseMatch (pyStrip (result.text.getD "")) = true
        · rcases hn with hn | hn <;> simp [Realtime.websocket_receive_chunk, h0, h5, htr, hn]
        · push_neg at hn
          simp [Realtime.websocket_receive_chunk, h0, h5, htr, hn.1, hn.2]
    · intro result htr hn
      rcases hn with hn | hn <;> simp [Realtime.websocket_receive_chunk, h0, h5, htr, hn]
    · intro result htr hne hnoise
      simp [Realtime.websocket_receive_chunk, h0, h5, htr, hne, hnoise]

set_option maxRecDepth 8192 in
/-- Witness for C7 at concrete inputs: a 499-byte chunk leaves the state
untouched; a 500-byte chunk is buffered and its transcript sent. -/
theorem claim_C7_realtime_chunk_rules_witness :
    Realtime.websocket_receive_chunk rtTranscriber0 "accurate"
      (List.replicate 499 0) {} = {} ∧
    (Realtime.websocket_receive_chunk rtTranscriber0 "accurate"
      (List.replicate 500 0) {}).audio_chunks = [List.replicate 500 0] ∧
    (Realtime.websocket_receive_chunk rtTranscriber0 "accurate"
      (List.replicate 500 0) {}).sent =
      [.transcript "hej" 0 "accurate" none] := by
  have h := claim_C7_realtime_chunk_rules rtTranscriber0 "accurate" (List.replicate 500 0) {}
  have hlong : 500 ≤ (List.replicate (n := 500) (0 : Nat)).length := by
    rw [List.length_replicate]
  refine ⟨(claim_C7_realtime_chunk_rules rtTranscriber0 "accurate"
      (List.replicate 499 0) {}).1 (by rw [List.length_replicate]; omega), ?_, ?_⟩
  · have := (h.2 hlong).1
    simpa using this
  · have := ((h.2 hlong).2.2 { text := some " hej " } rfl (by decide) (by decide)).2
    simpa using this

/-- C8: re-interpreting a session whose session.json has an empty (or
missing) segments list fails with HTTP 400 and the empty-segments detail,
submitting no job (and the handler performs no session write); on a session
with non-empty segments exactly one job is submitted, carrying those raw
segments and the chosen context profile. -/
theorem claim_C8_interpret_empty_segments (sessions : String → Option Interpret.Session)
    (submit : Interpret.SubmitArgs → Option String) (sid ctx : String)
    (session : Interpret.Session) (hs : sessions sid = some session) :
    (session.segments = [] →
      Interpret.interpret_session sessions submit sid ctx =
        (.error { code := 400, detail := "Sessionen har inga segment" }, [])) ∧
    (session.segments ≠ [] →
      (Interpret.interpret_session sessions submit sid ctx).2 =
        [Interpret.submittedArgs session sid ctx] ∧
      ((Interpret.submittedArgs session sid ctx).segments = session.segments ∧
        (Interpret.submittedArgs session sid ctx).context_profile = ctx) ∧
      (∀ job_id, submit (Interpret.submittedArgs session sid ctx) = some job_id →
        job_id ≠ "" →
        (Interpret.interpret_session sessions submit sid ctx).1 =
          .ok { session_id := sid, context := ctx, job_id := job_id,
                poll_url := "/api/jobs/" ++ job_id })) := by
  constructor
  · intro hempty
    simp [Interpret.interpret_session, hs, hempty]
  · intro hne
    refine ⟨?_, ⟨rfl, rfl⟩, ?_⟩
    · cases hsub : submit (Interpret.submittedArgs session sid ctx) with
      | none => simp [Interpret.interpret_session, hs, hne, hsub]
      | some j =>
        by_cases hj : j = "" <;>
          simp [Interpret.interpret_session, hs, hne, hsub, hj]
    · intro job_id hsub hj
      simp [Interpret.interpret_session, hs, hne, hsub, hj]

/-- Witness for C8 at concrete inputs: the empty session yields 400 with the
empty-segments detail and no submitted job; the full session submits one
job carrying its raw segments and the journal context. -/
theorem claim_C8_interpret_empty_segments_witness :
    Interpret.interpret_session c8Sessions c8Submit "empty" "journal" =
      (.error { code := 400, detail := "Sessionen har inga segment" }, []) ∧
    (Interpret.interpret_session c8Sessions c8Submit "full" "journal").2 =
      [{ session_id := "full", segments := [c3LowSeg],
         audio_path := some "/app/transcriptions/sessions/full/audio.wav",
         context_profile := "journal" }] := by
  constructor
  · exact (claim_C8_interpret_empty_segments c8Sessions c8Submit "empty" "journal"
      { segments := [] } rfl).1 rfl
  · have h := ((claim_C8_interpret_empty_segments c8Sessions c8Submit "full" "journal"
      { segments := [c3LowSeg], audio_file := some "audio.wav" } rfl).2 (by decide)).1
    rw [h]
    rfl
